import Mathlib

/-!
# Verification of the notion-to-anki task/flashcard core

Shallow embedding of the flashcard pipeline (`src/domain/flashcard/service.py`,
`src/domain/flashcard/models.py`, `src/domain/flashcard/config.py`), the task
registry (`src/domain/task/service.py`), the progress broadcaster
(`websockets/manager.py`) and the two storage backends
(`src/storage/memory.py`, `src/storage/redis.py`), together with theorems
settling the frozen claims about them.

Modelling conventions: Python dicts become insertion-ordered association
lists; `async` effects become explicit state passing; exceptions become
`Except`; Python truthiness of a string `s` is `s ≠ ""`; wall-clock time is
an abstract `Nat` clock passed explicitly; `asyncio.sleep` and TTL-driven
expiry between two immediately consecutive operations are not modelled
(operations are compared at the same logical instant).
-/

namespace NotionAnki

/-! ## Flashcard domain model (`src/domain/flashcard/models.py`) -/

/-- The `Flashcard` dataclass: `front`, `back`, optional `url`
(`tags`/`created_at` default fields are not read by the pipeline and are
omitted). -/
structure Flashcard where
  front : String
  back : String
  url : String
  deriving Repr, DecidableEq

/-- Python `str.strip()` over the character list (kernel-reducible, unlike
`String.trim`): drop whitespace from both ends. -/
def pyStrip (s : String) : String :=
  ⟨((s.data.dropWhile Char.isWhitespace).reverse.dropWhile
      Char.isWhitespace).reverse⟩

/-- Maximal chunks between whitespace characters (possibly empty chunks,
as Python's `str.split` produces before filtering). -/
def splitWs : List Char → List Char → List (List Char)
  | [], acc => [acc.reverse]
  | c :: rest, acc =>
      if c.isWhitespace then acc.reverse :: splitWs rest []
      else splitWs rest (c :: acc)

/-- `Flashcard.__post_init__`: raises `ValueError` when `front` or `back` is
falsy (the empty string), BEFORE trimming; then strips both fields.
Construction is modelled as `Except` with the `ValueError` message. -/
def mkFlashcard (front back url : String) : Except String Flashcard :=
  if front = "" ∨ back = "" then
    .error "Flashcard must have both front and back content"
  else
    .ok { front := pyStrip front, back := pyStrip back, url := url }

/-- A statement of the spec's construction rule, for comparison with
`mkFlashcard`: both fields must be non-empty AFTER trimming whitespace. -/
def specMkFlashcardOk (front back : String) : Bool :=
  pyStrip front != "" && pyStrip back != ""

/-! ## Validator (`FlashcardValidator.validate_flashcard_content`) -/

/-- `FlashcardValidator.validate_flashcard_content` with the default bounds
`min_length = 3`, `max_length = 500`: false on falsy or non-string input,
false when the stripped text is empty or the sentinel `"Summary unavailable"`,
otherwise requires length within bounds and stripped text distinct from
`"None"`. -/
def validate_flashcard_content (text : String) (minLength : Nat := 3)
    (maxLength : Nat := 500) : Bool :=
  if text = "" then false
  else
    let t := pyStrip text
    if t = "" || t = "Summary unavailable" then false
    else
      decide (minLength ≤ t.length) && decide (t.length ≤ maxLength)
        && pyStrip t != "None"

/-! ## Generation config (`src/domain/flashcard/config.py`) -/

/-- `SummaryLength` enum. -/
inductive SummaryLength where
  | short
  | medium
  | long
  deriving Repr, DecidableEq

/-- `SummaryLength.word_limit`. -/
def SummaryLength.word_limit : SummaryLength → Nat
  | .short => 25
  | .medium => 50
  | .long => 100

/-- `FlashcardGenerationConfig`; only `summary_length` is read by the
operations modelled here (the export/inclusion flags steer collaborators
outside this core). -/
structure FlashcardGenerationConfig where
  summary_length : SummaryLength := .medium
  deriving Repr, DecidableEq

/-- Python `len(text.split())`: number of maximal whitespace-free chunks. -/
def pyWordCount (text : String) : Nat :=
  ((splitWs text.data []).filter (fun w => w ≠ [])).length

/-- `FlashcardGenerationConfig.get_summary_prompt`. -/
def get_summary_prompt (cfg : FlashcardGenerationConfig) (text : String) :
    String :=
  if pyWordCount text ≤ cfg.summary_length.word_limit then
    "[[" ++ pyStrip text ++ "]]"
  else
    let lengthPrompt :=
      match cfg.summary_length with
      | .short => "Summarize this concisely in about 50 words: "
      | .medium => "Provide a clear summary in about 100 words: "
      | .long => "Give a comprehensive summary in about 200 words: "
    lengthPrompt ++ "\n\n`" ++ text ++ "`"

/-! ## Summarization gate (`FlashcardCreator.get_cached_summary`) -/

/-- The constant `FlashcardCreator.PROMPT_PREFIX`. -/
def promptHeader : String :=
  "Summarize the following text. Provide only the summary, enclosed in [[ ]]"

/-- The fully rendered prompt
`f"{PROMPT_PREFIX}. {config.get_summary_prompt(text)}"`. -/
def renderedPrompt (cfg : FlashcardGenerationConfig) (text : String) :
    String :=
  promptHeader ++ ". " ++ get_summary_prompt cfg text

/-- A chatbot (`ChatBot.get_summary`) is modelled as a deterministic
response function; `none` covers both a raised exception and a falsy (`None`)
return, which the gate's `handle_service_errors` wrapper and the
`if summary:` check make observably identical. -/
abbrev ChatBotFn : Type := String → Option String

/-- The summary cache (`FlashcardCache` over `TTLCache`) as an association
list from cache key to cached summary. Size-based eviction and time-based
expiry are not modelled: the claims compare immediately consecutive requests.
Python's `hash(prompt)` in the cache key `f"summary_{hash(prompt)}"` is
modelled collision-free, so the key is `"summary_" ++ prompt`. -/
abbrev Cache : Type := List (String × String)

/-- Association-list lookup (Python `dict.get`). -/
def cacheLookup : Cache → String → Option String
  | [], _ => none
  | (k, v) :: rest, key => if k = key then some v else cacheLookup rest key

/-- Cache write `self.cache[key] = value`. -/
def cacheStore : Cache → String → String → Cache
  | [], key, v => [(key, v)]
  | (k, w) :: rest, key, v =>
      if k = key then (key, v) :: rest else (k, w) :: cacheStore rest key v

/-- `FlashcardCreator.get_cached_summary`: pass-through without a chatbot;
otherwise render the prompt, return a truthy cached value, else invoke the
chatbot, caching only a truthy summary. Returns the result, the new cache and
the number of underlying summarizer invocations made by this call. -/
def get_cached_summary (cache : Cache) (chatbot : Option ChatBotFn)
    (cfg : FlashcardGenerationConfig) (text : String) :
    Option String × Cache × Nat :=
  match chatbot with
  | none => (some text, cache, 0)
  | some bot =>
      let key := "summary_" ++ renderedPrompt cfg text
      match cacheLookup cache key with
      | some v =>
          if v ≠ "" then (some v, cache, 0)
          else
            match bot (renderedPrompt cfg text) with
            | some s =>
                if s ≠ "" then (some s, cacheStore cache key s, 1)
                else (none, cache, 1)
            | none => (none, cache, 1)
      | none =>
          match bot (renderedPrompt cfg text) with
          | some s =>
              if s ≠ "" then (some s, cacheStore cache key s, 1)
              else (none, cache, 1)
          | none => (none, cache, 1)

/-- Two consecutive summary requests for the same text against an initially
empty cache: results of both calls and the total number of summarizer
invocations. -/
def summarizeTwice (bot : ChatBotFn) (cfg : FlashcardGenerationConfig)
    (text : String) : Option String × Option String × Nat :=
  let r1 := get_cached_summary [] (some bot) cfg text
  let r2 := get_cached_summary r1.2.1 (some bot) cfg text
  (r1.1, r2.1, r1.2.2 + r2.2.2)

/-! ## Flashcard pipeline (`FlashcardCreator.create_flashcards`) -/

/-- A record of the normalized content list (`item["front"]`, `item["back"]`,
`item["url"]`). -/
structure Item where
  front : String
  back : String
  url : String
  deriving Repr, DecidableEq

/-- One `update_task_progress` call emitted by the pipeline:
`(progress, status, message)`. -/
structure ProgressUpdate where
  progress : Nat
  status : String
  message : String
  deriving Repr, DecidableEq

/-- `FlashcardCreator.process_single_flashcard`. The source calls
`FlashcardValidator.validate_flashcard_content(card.front)` without using its
result, so the call is bound and discarded here too. A falsy chatbot summary
raises `FlashcardCreationError("Failed to generate summary")`, which the
function's own generic handler re-wraps once more; a `ValueError` from the
`Flashcard` constructor is wrapped once. The `(FlashcardValidationError,
ChatBotError)` branch that returns `None` is unreachable (neither exception
escapes the gate), so the result is `Except` with the error's string. -/
def process_single_flashcard (cache : Cache) (item : Item)
    (cfg : FlashcardGenerationConfig) (chatbot : Option ChatBotFn) :
    Except String Flashcard × Cache :=
  match mkFlashcard item.front item.back item.url with
  | .error e => (.error ("Failed to create flashcard: " ++ e), cache)
  | .ok card =>
      let _discardedValidation := validate_flashcard_content card.front
      match chatbot with
      | none =>
          (.ok { card with
                  back := card.back ++ "\n URL: <a href=\"" ++ item.url
                    ++ "\">Link</a>" }, cache)
      | some _ =>
          let r := get_cached_summary cache chatbot cfg card.back
          match r.1 with
          | none =>
              (.error ("Failed to create flashcard: "
                ++ "Failed to create flashcard: Failed to generate summary"),
               r.2.1)
          | some s =>
              (.ok { card with
                      back := s ++ "\n URL: <a href=\"" ++ item.url
                        ++ "\">Link</a>" }, r.2.1)

/-- The per-item loop of `create_flashcards`: threads the `processed_items`
counter and the summary cache, and accumulates the progress-update trace, the
saved flashcards and the `skipped_items` counter. A successful item is saved
and reported with status `"processing"`; a failed item is counted as skipped
and reported with status `"warning"`. Returns
`(trace, saved, skipped, processed)`. -/
def runItems (cfg : FlashcardGenerationConfig) (chatbot : Option ChatBotFn)
    (total : Nat) :
    List Item → Nat → Cache →
    List ProgressUpdate × List Flashcard × Nat × Nat
  | [], processed, _ => ([], [], 0, processed)
  | item :: rest, processed, cache =>
      let p := processed + 1
      let r := process_single_flashcard cache item cfg chatbot
      match r.1 with
      | .ok card =>
          let prog : ProgressUpdate :=
            ⟨p * 100 / total, "processing",
              s!"Created flashcard ({p}/{total})"⟩
          let rec' := runItems cfg chatbot total rest p r.2
          (prog :: rec'.1, card :: rec'.2.1, rec'.2.2.1, rec'.2.2.2)
      | .error e =>
          let prog : ProgressUpdate :=
            ⟨p * 100 / total, "warning",
              s!"Error with flashcard ({p}/{total}): {e}"⟩
          let rec' := runItems cfg chatbot total rest p r.2
          (prog :: rec'.1, rec'.2.1, rec'.2.2.1 + 1, rec'.2.2.2)

/-- The error raised for an empty content list:
`ValidationError("No content provided", "notion_content")`. -/
inductive PipelineError where
  | validationError (message field : String)
  deriving Repr, DecidableEq

instance {ε α : Type} [DecidableEq ε] [DecidableEq α] :
    DecidableEq (Except ε α) := fun x y =>
  match x, y with
  | .error e, .error f =>
      if h : e = f then isTrue (by rw [h])
      else isFalse (by intro hc; cases hc; exact h rfl)
  | .ok a, .ok b =>
      if h : a = b then isTrue (by rw [h])
      else isFalse (by intro hc; cases hc; exact h rfl)
  | .error _, .ok _ => isFalse (by intro hc; cases hc)
  | .ok _, .error _ => isFalse (by intro hc; cases hc)

/-- Observable outcome of one `create_flashcards` run: the progress updates
sent to the task service in order (the final one included), the flashcards
saved to the repository in order, the final `skipped_items` counter, and the
returned `(message, status)` pair or the raised error. -/
structure RunResult where
  trace : List ProgressUpdate
  saved : List Flashcard
  skipped : Nat
  processed : Nat
  outcome : Except PipelineError (String × String)
  deriving Repr, DecidableEq

/-- `FlashcardCreator.create_flashcards`: raises `ValidationError` on empty
content before any progress update or save; otherwise runs the per-item loop
(per-item failures are absorbed into `skipped_items`), classifies the final
status from the counters, emits a final progress update at 100 and returns
`(message, status)`. -/
def create_flashcards (cfg : FlashcardGenerationConfig)
    (chatbot : Option ChatBotFn) (content : List Item) : RunResult :=
  if content = [] then
    ⟨[], [], 0, 0, .error (.validationError "No content provided"
      "notion_content")⟩
  else
    let total := content.length
    let r := runItems cfg chatbot total content 0 []
    let skipped := r.2.2.1
    let processed := r.2.2.2
    let ms : String × String :=
      if skipped = total then
        ("All flashcards failed to generate", "failed")
      else if skipped > 0 then
        (s!"Flashcard generation completed with {processed - skipped} successful and {skipped} failed",
         "completed_with_errors")
      else
        (s!"Flashcard generation completed successfully for all {total} flashcards",
         "completed")
    ⟨r.1 ++ [⟨100, ms.2, ms.1⟩], r.2.1, skipped, processed, .ok ms⟩

/-! ## Progress broadcaster (`websockets/manager.py`) -/

/-- A subscriber channel; `sendOk` tells whether `websocket.send_json`
succeeds or raises for this channel. -/
structure Channel where
  sendOk : Bool
  deriving Repr, DecidableEq

/-- The `WebSocketManager.connections` map, task id to channel. -/
abbrev ConnMap : Type := List (String × Channel)

/-- Lookup in the connection map (`task_id in self.connections`). -/
def connLookup : ConnMap → String → Option Channel
  | [], _ => none
  | (k, c) :: rest, key => if k = key then some c else connLookup rest key

/-- `WebSocketManager.disconnect`: pops the mapping if present, no-op
otherwise. -/
def disconnect : ConnMap → String → ConnMap
  | [], _ => []
  | (k, c) :: rest, key =>
      if k = key then rest else (k, c) :: disconnect rest key

/-- `WebSocketManager.send_progress`: if a channel is registered, attempt
delivery; a raised delivery error is caught, logged and answered by
`disconnect`; with no registered channel nothing happens. Returns the new
connection map and whether the event was delivered; no exception escapes. -/
def send_progress (m : ConnMap) (task_id : String) : ConnMap × Bool :=
  match connLookup m task_id with
  | none => (m, false)
  | some ch => if ch.sendOk then (m, true) else (disconnect m task_id, false)

/-! ## Task registry (`src/domain/task/service.py`) -/

/-- A JSON scalar stored in a task-record field. -/
inductive FieldVal where
  | str (s : String)
  | nat (n : Nat)
  deriving Repr, DecidableEq

/-- A task record: the JSON object stored under the task key, as an
insertion-ordered association list (`json.loads`/`json.dumps` round-trip is
the identity on this model). -/
abbrev TaskRecord : Type := List (String × FieldVal)

/-- Python `dict` update of a single key: overwrite in place, else append. -/
def setField : TaskRecord → String → FieldVal → TaskRecord
  | [], k, v => [(k, v)]
  | (k', v') :: rest, k, v =>
      if k' = k then (k, v) :: rest else (k', v') :: setField rest k v

/-- Field lookup in a task record. -/
def lookupField : TaskRecord → String → Option FieldVal
  | [], _ => none
  | (k, v) :: rest, key => if k = key then some v else lookupField rest key

/-- The key-value store as seen through `get`/`setex`: key to
(record, remaining TTL in seconds). -/
abbrev Store : Type := List (String × TaskRecord × Nat)

/-- Store read (`redis.get`). -/
def storeGet : Store → String → Option (TaskRecord × Nat)
  | [], _ => none
  | (k, v) :: rest, key => if k = key then some v else storeGet rest key

/-- Store write with TTL (`redis.setex`): upsert, overwriting any prior TTL. -/
def storeSet : Store → String → TaskRecord × Nat → Store
  | [], key, v => [(key, v)]
  | (k, w) :: rest, key, v =>
      if k = key then (key, v) :: rest else (k, w) :: storeSet rest key v

/-- The task key `f"task:{user_id}:{task_id}"`. -/
def taskKey (user_id task_id : String) : String :=
  "task:" ++ user_id ++ ":" ++ task_id

/-- `datetime.now().isoformat()`, over the abstract `Nat` clock. -/
def isoTimestamp (now : Nat) : String := toString now

/-- `TaskService.update_task_progress`: read the existing record (an absent
or expired key yields the empty object), merge the five fields
`progress`/`status`/`message`/`timestamp`/`user_id` onto it, write it back
with `setex` and a fresh 24-hour TTL (86400 s), then best-effort broadcast
outside the lock — a broadcast failure is caught and logged, never raised.
Returns the new store and connection map. -/
def update_task_progress (store : Store) (conns : ConnMap)
    (user_id task_id : String) (progress : Nat) (status message : String)
    (now : Nat) : Store × ConnMap :=
  let key := taskKey user_id task_id
  let task_data : TaskRecord :=
    match storeGet store key with
    | some (rec, _) => rec
    | none => []
  let task_data :=
    setField (setField (setField (setField (setField task_data
      "progress" (.nat progress))
      "status" (.str status))
      "message" (.str message))
      "timestamp" (.str (isoTimestamp now)))
      "user_id" (.str user_id)
  let store' := storeSet store key (task_data, 86400)
  let conns' := (send_progress conns task_id).1
  (store', conns')

/-! ## Sorted-set storage backends
(`src/storage/memory.py` and `src/storage/redis.py`) -/

/-- A sorted set, as the insertion-ordered member-to-score dict
`self.sorted_sets[key]` of `DictionaryBackend` (also an adequate value model
for the networked store, which orders by score on demand). Scores are the
abstract `Nat` timestamps. -/
abbrev ZSet : Type := List (String × Nat)

/-- `dict.update` of one member-score pair. -/
def zsetPut : ZSet → String → Nat → ZSet
  | [], m, sc => [(m, sc)]
  | (m', sc') :: rest, m, sc =>
      if m' = m then (m, sc) :: rest else (m', sc') :: zsetPut rest m sc

/-- Member lookup in a sorted set. -/
def zsetScore : ZSet → String → Option Nat
  | [], _ => none
  | (m, sc) :: rest, key => if m = key then some sc else zsetScore rest key

/-- Stable insertion into a score-descending list, keeping earlier elements
first among equal scores (Python's stable `sorted(..., reverse=True)`). -/
def insertDesc (x : String × Nat) : ZSet → ZSet
  | [] => [x]
  | y :: ys => if y.2 < x.2 then x :: y :: ys else y :: insertDesc x ys

/-- `sorted(items, key=score, reverse=True)`: stable descending sort. -/
def sortDesc (s : ZSet) : ZSet := s.foldl (fun acc x => insertDesc x acc) []

/-- Stable insertion into a score-ascending list. -/
def insertAsc (x : String × Nat) : ZSet → ZSet
  | [] => [x]
  | y :: ys => if x.2 < y.2 then x :: y :: ys else y :: insertAsc x ys

/-- Stable ascending sort by score. -/
def sortAsc (s : ZSet) : ZSet := s.foldl (fun acc x => insertAsc x acc) []

/-- Python slice `l[a : b]` with possibly negative bounds. -/
def pySlice (l : List α) (a b : Int) : List α :=
  let n : Int := l.length
  let lo := (if a < 0 then max (n + a) 0 else min a n).toNat
  let hi := (if b < 0 then max (n + b) 0 else min b n).toNat
  (l.take hi).drop lo

/-- `DictionaryBackend.zadd`: `dict.update` with the given mapping. -/
def dictZadd (s : ZSet) (mapping : List (String × Nat)) : ZSet :=
  mapping.foldl (fun acc x => zsetPut acc x.1 x.2) s

/-- `DictionaryBackend.zrevrange`: sort descending by score, then the Python
slice `[start : end + 1]` of members. -/
def dictZrevrange (s : ZSet) (start stop : Int) : List String :=
  (pySlice (sortDesc s) start (stop + 1)).map Prod.fst

/-- `DictionaryBackend.zremrangebyrank`: sort DESCENDING by score, take the
Python slice `[start : end + 1]`, and pop those members. -/
def dictZremrangebyrank (s : ZSet) (start stop : Int) : ZSet :=
  let to_remove := (pySlice (sortDesc s) start (stop + 1)).map Prod.fst
  s.filter (fun x => ¬ to_remove.contains x.1)

/-- Modelled from the spec: the networked backend delegates `zadd` to the
store's native sorted-set command, which upserts member scores. -/
def redisZadd (s : ZSet) (mapping : List (String × Nat)) : ZSet :=
  mapping.foldl (fun acc x => zsetPut acc x.1 x.2) s

/-- Rank-range normalization of the networked store's sorted-set commands:
over `n` elements, a negative index counts from the end, then the range is
clamped to `[0, n - 1]`; an inverted range selects nothing. Members at ranks
`start..stop` inclusive of the given ordering are selected. -/
def redisRankSlice (l : List α) (start stop : Int) : List α :=
  let n : Int := l.length
  let lo := max (if start < 0 then n + start else start) 0
  let hi := min (if stop < 0 then n + stop else stop) (n - 1)
  if lo > hi then []
  else ((l.take (hi.toNat + 1)).drop lo.toNat)

/-- Modelled from the spec: the networked store's `zrevrange` returns the
members at ranks `start..stop` inclusive of the score-DESCENDING ordering
(spec 4.1: "highest-score-first slice, inclusive indices"). -/
def redisZrevrange (s : ZSet) (start stop : Int) : List String :=
  (redisRankSlice (sortDesc s) start stop).map Prod.fst

/-- Modelled from the spec: the networked store's `zremrangebyrank` removes
the members at ranks `start..stop` inclusive of the score-ASCENDING ordering
(rank 0 is the lowest score; negative ranks count from the end). -/
def redisZremrangebyrank (s : ZSet) (start stop : Int) : ZSet :=
  let to_remove := (redisRankSlice (sortAsc s) start stop).map Prod.fst
  s.filter (fun x => ¬ to_remove.contains x.1)

/-- `TaskService.add_to_history` acting on the per-user history sorted set:
`zadd` the serialized entry with its timestamp as score, trim with
`zremrangebyrank(key, 0, -101)`, refresh the 30-day TTL (2592000 s). The
entry member is the `json.dumps` serialization, modelled as the entry string
itself. Parametrized by the backend's sorted-set operations. -/
def add_to_history (zadd : ZSet → List (String × Nat) → ZSet)
    (zrem : ZSet → Int → Int → ZSet) (hist : ZSet) (entry : String)
    (ts : Nat) : ZSet × Nat :=
  (zrem (zadd hist [(entry, ts)]) 0 (-101), 2592000)

/-- `add_to_history` running against the in-process `DictionaryBackend`. -/
def add_to_history_dict (hist : ZSet) (entry : String) (ts : Nat) :
    ZSet × Nat :=
  add_to_history dictZadd dictZremrangebyrank hist entry ts

/-- `add_to_history` running against the networked backend. -/
def add_to_history_redis (hist : ZSet) (entry : String) (ts : Nat) :
    ZSet × Nat :=
  add_to_history redisZadd redisZremrangebyrank hist entry ts

/-! ## Helper lemmas -/

/-- `setField` affects exactly the written key. -/
theorem lookupField_setField (r : TaskRecord) (k q : String) (v : FieldVal) :
    lookupField (setField r k v) q =
      if q = k then some v else lookupField r q := by
  induction r with
  | nil =>
      by_cases h : q = k
      · simp [setField, lookupField, h]
      · simp [setField, lookupField, h, Ne.symm h]
  | cons kv rest ih =>
      obtain ⟨k', v'⟩ := kv
      by_cases hk : k' = k
      · subst hk
        by_cases hq : q = k'
        · simp [setField, lookupField, hq]
        · simp [setField, lookupField, hq, Ne.symm hq]
      · by_cases hq : q = k'
        · have hqk : ¬ q = k := fun h => hk (hq.symm.trans h)
          simp [setField, lookupField, hk, hq, hqk]
        · simp [setField, lookupField, hk, hq, Ne.symm hq, ih]

/-- Reading back the key just written to the store. -/
theorem storeGet_storeSet_self (s : Store) (k : String)
    (v : TaskRecord × Nat) : storeGet (storeSet s k v) k = some v := by
  induction s with
  | nil => simp [storeSet, storeGet]
  | cons kv rest ih =>
      obtain ⟨k', v'⟩ := kv
      by_cases hk : k' = k
      · simp [storeSet, storeGet, hk]
      · simp [storeSet, storeGet, hk, ih]

/-- A key absent from an association list looks up to `none`. -/
theorem connLookup_eq_none_of_not_mem (m : ConnMap) (k : String)
    (h : k ∉ m.map Prod.fst) : connLookup m k = none := by
  induction m with
  | nil => rfl
  | cons kv rest ih =>
      obtain ⟨k', c⟩ := kv
      simp only [List.map_cons, List.mem_cons] at h
      push_neg at h
      simp [connLookup, Ne.symm h.1, ih h.2]

/-- Over a duplicate-free connection map (the representation invariant of a
Python dict), `disconnect` removes the key entirely. -/
theorem connLookup_disconnect_self (m : ConnMap) (k : String)
    (h : (m.map Prod.fst).Nodup) : connLookup (disconnect m k) k = none := by
  induction m with
  | nil => rfl
  | cons kv rest ih =>
      obtain ⟨k', c⟩ := kv
      simp only [List.map_cons, List.nodup_cons] at h
      by_cases hk : k' = k
      · subst hk
        simp [disconnect, connLookup_eq_none_of_not_mem rest k' h.1]
      · simp [disconnect, hk, connLookup, Ne.symm hk, ih h.2]

/-! ## Claim-side statements and fixtures -/

/-- The final-status rule of `create_flashcards`, by the counters. -/
def claimedStatus (skipped total : Nat) : String :=
  if skipped = total then "failed"
  else if skipped = 0 then "completed"
  else "completed_with_errors"

/-- The final message of `create_flashcards`, by the counters. -/
def claimedMessage (skipped processed total : Nat) : String :=
  if skipped = total then "All flashcards failed to generate"
  else if skipped = 0 then
    s!"Flashcard generation completed successfully for all {total} flashcards"
  else
    s!"Flashcard generation completed with {processed - skipped} successful and {skipped} failed"

/-- A full history log: 100 entries with timestamp scores 0..99. -/
def hist100 : ZSet := (List.range 100).map (fun i => (toString i, i))

/-! ## Claim theorems -/

/-- C2: the pipeline does NOT skip a record whose front is too short.
`validate_flashcard_content "ab"` is false, yet `create_flashcards` on the
single record with front `"ab"` persists the card, counts zero skips and
finishes `"completed"`, because the validator's boolean result is discarded
in `process_single_flashcard` (service.py line 190). -/
theorem short_front_not_skipped :
    validate_flashcard_content "ab" = false ∧
    create_flashcards {} none [⟨"ab", "b", "u"⟩] =
      ⟨[⟨100, "processing", "Created flashcard (1/1)"⟩,
        ⟨100, "completed",
          "Flashcard generation completed successfully for all 1 flashcards"⟩],
       [⟨"ab", "b\n URL: <a href=\"u\">Link</a>", "u"⟩], 0, 1,
       .ok ("Flashcard generation completed successfully for all 1 flashcards",
         "completed")⟩ := by
  decide

/-- C4: appending a 101st history entry (the one with the highest timestamp)
through `add_to_history` on the in-process `DictionaryBackend` keeps the log
at 100 entries with the refreshed 30-day TTL, but trims away the NEWEST
entry and keeps the oldest — `DictionaryBackend.zremrangebyrank` slices a
score-descending sort — whereas the same call under the networked store's
ascending rank semantics retains the newest and trims the oldest. -/
theorem add_to_history_dict_drops_newest :
    (add_to_history_dict hist100 "new" 100).1.length = 100 ∧
    (add_to_history_dict hist100 "new" 100).2 = 2592000 ∧
    zsetScore (add_to_history_dict hist100 "new" 100).1 "new" = none ∧
    zsetScore (add_to_history_dict hist100 "new" 100).1 "0" = some 0 ∧
    zsetScore (add_to_history_redis hist100 "new" 100).1 "new" = some 100 ∧
    zsetScore (add_to_history_redis hist100 "new" 100).1 "0" = none := by
  decide

/-- C5: the in-process and networked backends disagree on
`zremrangebyrank`: on the sorted set with scores A:1, B:2, removing rank
range (0, 0) removes the highest-scored member B in `DictionaryBackend`
(which ranks a DESCENDING sort) but the lowest-scored member A under the
networked store's ascending ranks, observable through a following
`zrevrange (0, 1)`. -/
theorem zremrangebyrank_backends_diverge :
    dictZrevrange (dictZremrangebyrank [("A", 1), ("B", 2)] 0 0) 0 1 = ["A"]
      ∧
    redisZrevrange (redisZremrangebyrank [("A", 1), ("B", 2)] 0 0) 0 1 =
      ["B"] := by
  decide

/-- C9 counterexample: a whitespace-only front trims to the empty string, so
the claimed rule rejects it, yet `Flashcard.__post_init__` checks emptiness
BEFORE trimming, and construction succeeds with an empty front. -/
theorem whitespace_only_front_constructs :
    mkFlashcard " " "x" "u" = .ok ⟨"", "x", "u"⟩ ∧
    specMkFlashcardOk " " "x" = false := by
  decide

/-- C9 (amended): constructing a `Flashcard` succeeds iff `front` and `back`
are non-empty before trimming; whitespace-only values pass the check and are
then trimmed to the empty string. -/
theorem mkFlashcard_ok_iff (front back url : String) :
    (∃ c, mkFlashcard front back url = .ok c) ↔ front ≠ "" ∧ back ≠ "" := by
  unfold mkFlashcard
  by_cases h : front = "" ∨ back = ""
  · rcases h with h | h <;> simp [h]
  · push_neg at h
    simp [h.1, h.2]

/-- C9 amended-claim witness: a flashcard with non-empty fields constructs. -/
theorem mkFlashcard_ok_iff_sample : ∃ c, mkFlashcard "a" "b" "u" = .ok c :=
  (mkFlashcard_ok_iff "a" "b" "u").mpr (by decide)

/-- C8 counterexample: with a summarizer whose call fails (absorbed to a
`None` result by the gate), two requests for the same text invoke the
underlying summarizer twice — a failed summarization is not cached. -/
theorem failed_summary_not_cached :
    (summarizeTwice (fun _ => none) {} "text").2.2 = 2 := by
  decide

/-- C8 (amended): provided the summarizer answers the rendered prompt with a
non-empty summary, two requests for the same text invoke it exactly once:
the second is served from the cache, keyed by the rendered prompt's hash,
and returns the same summary without calling the summarizer. -/
theorem second_summary_served_from_cache (bot : ChatBotFn)
    (cfg : FlashcardGenerationConfig) (text s : String)
    (hbot : bot (renderedPrompt cfg text) = some s) (hs : s ≠ "") :
    summarizeTwice bot cfg text = (some s, some s, 1) := by
  simp [summarizeTwice, get_cached_summary, hbot, hs, cacheLookup, cacheStore]

/-- C8 amended-claim witness at a constant summarizer. -/
theorem second_summary_served_from_cache_sample :
    summarizeTwice (fun _ => some "S") {} "text" = (some "S", some "S", 1) :=
  second_summary_served_from_cache (fun _ => some "S") {} "text" "S" rfl
    (by decide)

/-- C1: for every non-empty record list, `create_flashcards` returns a
`(message, status)` pair with status `"failed"` when the skip counter equals
the total, `"completed"` when it is zero, `"completed_with_errors"`
otherwise, the message being the corresponding count summary. -/
theorem create_flashcards_final_classification
    (cfg : FlashcardGenerationConfig) (chatbot : Option ChatBotFn)
    (content : List Item) (h : content ≠ []) :
    (create_flashcards cfg chatbot content).outcome =
      .ok
        (claimedMessage (create_flashcards cfg chatbot content).skipped
          (create_flashcards cfg chatbot content).processed content.length,
         claimedStatus (create_flashcards cfg chatbot content).skipped
          content.length) := by
  unfold create_flashcards
  rw [if_neg h]
  by_cases h1 :
      (runItems cfg chatbot content.length content 0 []).2.2.1 =
        content.length
  · simp [claimedMessage, claimedStatus, h1]
  · by_cases h2 : (runItems cfg chatbot content.length content 0 []).2.2.1 = 0
    · have h1' : ¬ (0 = content.length) := h2 ▸ h1
      simp [claimedMessage, claimedStatus, h1', h2]
    · simp [claimedMessage, claimedStatus, h1, h2,
        Nat.pos_of_ne_zero h2]

/-- C1 witness: one valid record, processed without skips. -/
theorem create_flashcards_final_classification_sample :
    (create_flashcards {} none [⟨"abc", "b", "u"⟩]).outcome =
      .ok
        (claimedMessage (create_flashcards {} none [⟨"abc", "b", "u"⟩]).skipped
          (create_flashcards {} none [⟨"abc", "b", "u"⟩]).processed 1,
         claimedStatus (create_flashcards {} none [⟨"abc", "b", "u"⟩]).skipped
          1) :=
  create_flashcards_final_classification {} none [⟨"abc", "b", "u"⟩]
    (by decide)

/-- C6: an empty record list yields the `ValidationError` immediately — the
returned run shows no progress update and no saved flashcard — while a
non-empty list always produces a `(message, status)` result: per-item errors
are absorbed into the counters, never raised. -/
theorem empty_content_raises_before_work :
    (∀ cfg chatbot, create_flashcards cfg chatbot [] =
      ⟨[], [], 0, 0,
        .error (.validationError "No content provided" "notion_content")⟩) ∧
    (∀ cfg chatbot content, content ≠ [] →
      ∃ p, (create_flashcards cfg chatbot content).outcome = .ok p) := by
  constructor
  · intro cfg chatbot
    rfl
  · intro cfg chatbot content h
    unfold create_flashcards
    rw [if_neg h]
    exact ⟨_, rfl⟩

/-- C6 witness: the empty-content error, and a successful one-record run. -/
theorem empty_content_raises_before_work_sample :
    create_flashcards {} none [] =
      ⟨[], [], 0, 0,
        .error (.validationError "No content provided" "notion_content")⟩ ∧
    ∃ p, (create_flashcards {} none [⟨"abc", "b", "u"⟩]).outcome = .ok p :=
  ⟨empty_content_raises_before_work.1 {} none,
   empty_content_raises_before_work.2 {} none [⟨"abc", "b", "u"⟩]
     (by decide)⟩

/-- C7: `send_progress` with no registered channel is a silent no-op; a
failing delivery disconnects exactly that channel and raises nothing; and
the store write of `update_task_progress` is independent of the broadcaster
state, so a broadcast failure cannot fail the progress update. -/
theorem send_progress_self_healing :
    (∀ m tid, connLookup m tid = none → send_progress m tid = (m, false)) ∧
    (∀ (m : ConnMap) tid ch, (m.map Prod.fst).Nodup →
      connLookup m tid = some ch → ch.sendOk = false →
      send_progress m tid = (disconnect m tid, false) ∧
      connLookup (send_progress m tid).1 tid = none) ∧
    (∀ store m₁ m₂ uid tid progress status message now,
      (update_task_progress store m₁ uid tid progress status message now).1 =
      (update_task_progress store m₂ uid tid progress status message now).1)
    := by
  refine ⟨?_, ?_, ?_⟩
  · intro m tid hnone
    simp [send_progress, hnone]
  · intro m tid ch hnodup hsome hfail
    refine ⟨by simp [send_progress, hsome, hfail], ?_⟩
    simp [send_progress, hsome, hfail,
      connLookup_disconnect_self m tid hnodup]
  · intro store m₁ m₂ uid tid progress status message now
    rfl

/-- C7 witness: an empty map, and a one-channel map whose delivery fails. -/
theorem send_progress_self_healing_sample :
    send_progress [] "t" = ([], false) ∧
    send_progress [("t", ⟨false⟩)] "t" = ([], false) ∧
    connLookup (send_progress [("t", ⟨false⟩)] "t").1 "t" = none := by
  refine ⟨send_progress_self_healing.1 [] "t" rfl, ?_, ?_⟩
  · exact (send_progress_self_healing.2.1 [("t", ⟨false⟩)] "t" ⟨false⟩
      (by decide) rfl rfl).1
  · exact (send_progress_self_healing.2.1 [("t", ⟨false⟩)] "t" ⟨false⟩
      (by decide) rfl rfl).2

/-- C3: `update_task_progress` is a read-modify-write merge: with a record
already stored under the task key, every field other than
progress/status/message/timestamp/user_id keeps its value, those five fields
are overwritten with the new values, and the record is re-stored with a
fresh 24-hour TTL. -/
theorem update_task_progress_merges
    (store : Store) (conns : ConnMap) (uid tid : String) (progress : Nat)
    (status message : String) (now : Nat) (rec : TaskRecord) (ttl : Nat)
    (f : String) (hrec : storeGet store (taskKey uid tid) = some (rec, ttl))
    (hf : f ≠ "progress" ∧ f ≠ "status" ∧ f ≠ "message" ∧
      f ≠ "timestamp" ∧ f ≠ "user_id") :
    ∃ rec',
      storeGet (update_task_progress store conns uid tid progress status
        message now).1 (taskKey uid tid) = some (rec', 86400) ∧
      lookupField rec' f = lookupField rec f ∧
      lookupField rec' "progress" = some (.nat progress) ∧
      lookupField rec' "status" = some (.str status) ∧
      lookupField rec' "message" = some (.str message) ∧
      lookupField rec' "timestamp" = some (.str (isoTimestamp now)) ∧
      lookupField rec' "user_id" = some (.str uid) := by
  unfold update_task_progress
  simp only [hrec]
  refine ⟨_, storeGet_storeSet_self _ _ _, ?_, ?_, ?_, ?_, ?_, ?_⟩ <;>
    simp [lookupField_setField, hf.1, hf.2.1, hf.2.2.1, hf.2.2.2.1,
      hf.2.2.2.2]

/-- C3 witness: a stored record carrying a `details` field survives an
update. -/
theorem update_task_progress_merges_sample :
    ∃ rec',
      storeGet (update_task_progress
        [("task:u:t", [("details", FieldVal.str "d")], 500)] [] "u" "t" 42
        "processing" "m" 7).1 (taskKey "u" "t") = some (rec', 86400) ∧
      lookupField rec' "details" =
        lookupField [("details", FieldVal.str "d")] "details" ∧
      lookupField rec' "progress" = some (.nat 42) ∧
      lookupField rec' "status" = some (.str "processing") ∧
      lookupField rec' "message" = some (.str "m") ∧
      lookupField rec' "timestamp" = some (.str (isoTimestamp 7)) ∧
      lookupField rec' "user_id" = some (.str "u") :=
  update_task_progress_merges
    [("task:u:t", [("details", FieldVal.str "d")], 500)] [] "u" "t" 42
    "processing" "m" 7 [("details", FieldVal.str "d")] 500 "details"
    (by decide) (by decide)

/-- C10: with no record stored under the task key, `update_task_progress`
does not fail: it writes a fresh record holding exactly the given
progress/status/message plus a new timestamp and the user id, with a
24-hour TTL. -/
theorem update_task_progress_resurrects
    (store : Store) (conns : ConnMap) (uid tid : String) (progress : Nat)
    (status message : String) (now : Nat)
    (habs : storeGet store (taskKey uid tid) = none) :
    storeGet (update_task_progress store conns uid tid progress status
      message now).1 (taskKey uid tid) =
      some ([("progress", .nat progress), ("status", .str status),
             ("message", .str message),
             ("timestamp", .str (isoTimestamp now)),
             ("user_id", .str uid)], 86400) := by
  unfold update_task_progress
  simp only [habs]
  exact storeGet_storeSet_self store (taskKey uid tid) _

/-- C10 witness: updating a task that was never created. -/
theorem update_task_progress_resurrects_sample :
    storeGet (update_task_progress [] [] "u" "t" 10 "processing" "m" 7).1
      (taskKey "u" "t") =
      some ([("progress", .nat 10), ("status", .str "processing"),
             ("message", .str "m"), ("timestamp", .str (isoTimestamp 7)),
             ("user_id", .str "u")], 86400) :=
  update_task_progress_resurrects [] [] "u" "t" 10 "processing" "m" 7 rfl

end NotionAnki
